import Mathlib

/-!
Verification of the OpenBrowser command/response protocol layer.

Shallow embedding of:
  * `server/models/commands.py`   — the pydantic command model and `parse_command`;
  * `server/websocket/manager.py` — the WebSocket hub (`send_command`,
    `_handle_message`, `_handle_command_response`);
  * `server/core/processor.py`    — the command processor (`_prepare_command_dict`,
    `execute`, `_execute_tab_command`, `health_check`);
  * `server/core/coordinates.py`  — `CoordinateMapping`.

Python floats are modelled as exact rationals (`Rat`), Python ints as `Int`,
dictionaries as structures of optional fields or association lists.  `None`
and absent-key are collapsed into `Option.none` wherever pydantic treats them
the same way; the one field where the default is not `None` (`duration`)
uses `Option (Option Rat)` so that absent key and explicit null stay distinct.
-/

namespace OpenBrowser

/-! ## Command model enums (`server/models/commands.py`) -/

inductive MouseButton
  | left
  | right
  | middle
deriving DecidableEq, Repr

def MouseButton.toStr : MouseButton → String
  | .left => "left"
  | .right => "right"
  | .middle => "middle"

def MouseButton.ofStr (s : String) : Except String MouseButton :=
  if s = "left" then .ok .left
  else if s = "right" then .ok .right
  else if s = "middle" then .ok .middle
  else .error "value is not a valid enumeration member: MouseButton"

inductive ScrollDirection
  | up
  | down
  | left
  | right
deriving DecidableEq, Repr

def ScrollDirection.toStr : ScrollDirection → String
  | .up => "up"
  | .down => "down"
  | .left => "left"
  | .right => "right"

def ScrollDirection.ofStr (s : String) : Except String ScrollDirection :=
  if s = "up" then .ok .up
  else if s = "down" then .ok .down
  else if s = "left" then .ok .left
  else if s = "right" then .ok .right
  else .error "value is not a valid enumeration member: ScrollDirection"

inductive TabAction
  | «open»
  | close
  | list
  | switch
  | init
deriving DecidableEq, Repr

def TabAction.toStr : TabAction → String
  | .«open» => "open"
  | .close => "close"
  | .list => "list"
  | .switch => "switch"
  | .init => "init"

def TabAction.ofStr (s : String) : Except String TabAction :=
  if s = "open" then .ok .«open»
  else if s = "close" then .ok .close
  else if s = "list" then .ok .list
  else if s = "switch" then .ok .switch
  else if s = "init" then .ok .init
  else .error "value is not a valid enumeration member: TabAction"

/-! ## Text and URL validators

`KeyboardTypeCommand.validate_text` strips the control characters matched by
the regex `[\x00-\x08\x0b\x0c\x0e-\x1f\x7f]` (note: `\x09` tab, `\x0a`
newline and `\x0d` carriage return are NOT in the class and survive).
`TabCommand.validate_url` requires a URL for `open`/`init` and prepends
`https://` when the regex `^https?://` does not match. -/

def isStrippedCtl (c : Char) : Bool :=
  c.toNat ≤ 0x08 || c.toNat = 0x0b || c.toNat = 0x0c ||
    (0x0e ≤ c.toNat && c.toNat ≤ 0x1f) || c.toNat = 0x7f

def validate_text (s : String) : String :=
  String.mk (s.data.filter (fun c => !isStrippedCtl c))

def hasHttpScheme (s : String) : Bool :=
  "http://".data.isPrefixOf s.data || "https://".data.isPrefixOf s.data

/-! ## Command variants

Each pydantic model becomes a structure holding the *stored* (validated)
field values, and a smart constructor `mk` returning `Except String _`
that performs exactly the field validations pydantic v1 performs
(declared `Field` bounds first, then `@validator`s). -/

structure BaseCommand where
  command_id : Option String
  timestamp : Option Rat
deriving DecidableEq, Repr

structure MouseMoveCommand extends BaseCommand where
  dx : Int
  dy : Int
  duration : Option Rat
deriving DecidableEq, Repr

/-- Source `MouseMoveCommand(dx=..., dy=..., duration=...)`: `dx`, `dy` are required
with bounds `-5000 ≤ · ≤ 5000`; `duration` is optional with default `0.1`
and bounds `0 < · ≤ 5.0` (checked only on a non-null value). -/
def MouseMoveCommand.mk' (base : BaseCommand) (dx dy : Option Int)
    (duration : Option (Option Rat)) : Except String MouseMoveCommand :=
  match dx, dy with
  | none, _ => .error "field required: dx"
  | _, none => .error "field required: dy"
  | some dx, some dy =>
    if -5000 ≤ dx ∧ dx ≤ 5000 then
      if -5000 ≤ dy ∧ dy ≤ 5000 then
        match duration with
        | none => .ok ⟨base, dx, dy, some (1/10)⟩
        | some none => .ok ⟨base, dx, dy, none⟩
        | some (some d) =>
          if 0 < d ∧ d ≤ 5 then .ok ⟨base, dx, dy, some d⟩
          else .error "duration out of range"
      else .error "dy out of range"
    else .error "dx out of range"

structure MouseClickCommand extends BaseCommand where
  button : MouseButton
  double : Bool
  count : Int
deriving DecidableEq, Repr

/-- Source `MouseClickCommand(button=..., double=..., count=...)`: all defaulted;
`count` bounded `1 ≤ · ≤ 3`. -/
def MouseClickCommand.mk' (base : BaseCommand) (button : Option String)
    (double : Option Bool) (count : Option Int) : Except String MouseClickCommand :=
  let doubleV := double.getD false
  let countV := count.getD 1
  match button with
  | none =>
    if 1 ≤ countV ∧ countV ≤ 3 then .ok ⟨base, .left, doubleV, countV⟩
    else .error "count out of range"
  | some s =>
    match MouseButton.ofStr s with
    | .error e => .error e
    | .ok b =>
      if 1 ≤ countV ∧ countV ≤ 3 then .ok ⟨base, b, doubleV, countV⟩
      else .error "count out of range"

structure MouseScrollCommand extends BaseCommand where
  direction : ScrollDirection
  amount : Int
deriving DecidableEq, Repr

/-- Source `MouseScrollCommand(direction=..., amount=...)`: defaulted; `amount`
bounded `1 ≤ · ≤ 1000`. -/
def MouseScrollCommand.mk' (base : BaseCommand) (direction : Option String)
    (amount : Option Int) : Except String MouseScrollCommand :=
  let amountV := amount.getD 100
  match direction with
  | none =>
    if 1 ≤ amountV ∧ amountV ≤ 1000 then .ok ⟨base, .down, amountV⟩
    else .error "amount out of range"
  | some s =>
    match ScrollDirection.ofStr s with
    | .error e => .error e
    | .ok d =>
      if 1 ≤ amountV ∧ amountV ≤ 1000 then .ok ⟨base, d, amountV⟩
      else .error "amount out of range"

structure ResetMouseCommand extends BaseCommand where
deriving DecidableEq, Repr

structure KeyboardTypeCommand extends BaseCommand where
  text : String
deriving DecidableEq, Repr

/-- Source `KeyboardTypeCommand(text=...)`: `text` is required with
`max_length=1000` (checked on the input, before the custom validator);
then `validate_text` strips control characters. -/
def KeyboardTypeCommand.mk' (base : BaseCommand) (text : Option String) :
    Except String KeyboardTypeCommand :=
  match text with
  | none => .error "field required: text"
  | some s =>
    if s.length ≤ 1000 then .ok ⟨base, validate_text s⟩
    else .error "ensure this value has at most 1000 characters"

structure KeyboardPressCommand extends BaseCommand where
  key : String
  modifiers : List String
deriving DecidableEq, Repr

/-- Source `KeyboardPressCommand(key=..., modifiers=...)`: `key` required with
`max_length=50`; `modifiers` defaults to `[]` and is not validated. -/
def KeyboardPressCommand.mk' (base : BaseCommand) (key : Option String)
    (modifiers : Option (List String)) : Except String KeyboardPressCommand :=
  match key with
  | none => .error "field required: key"
  | some k =>
    if k.length ≤ 50 then .ok ⟨base, k, modifiers.getD []⟩
    else .error "ensure this value has at most 50 characters"

structure ScreenshotCommand extends BaseCommand where
  tab_id : Option Int
  include_cursor : Bool
  quality : Int
deriving DecidableEq, Repr

/-- Source `ScreenshotCommand(tab_id=..., include_cursor=..., quality=...)`:
`tab_id` optional, `include_cursor` defaults `True`, `quality` defaults 90
bounded `1 ≤ · ≤ 100`. -/
def ScreenshotCommand.mk' (base : BaseCommand) (tab_id : Option Int)
    (include_cursor : Option Bool) (quality : Option Int) :
    Except String ScreenshotCommand :=
  let q := quality.getD 90
  if 1 ≤ q ∧ q ≤ 100 then .ok ⟨base, tab_id, include_cursor.getD true, q⟩
  else .error "quality out of range"

structure TabCommand extends BaseCommand where
  action : TabAction
  url : Option String
  tab_id : Option Int
deriving DecidableEq, Repr

/-- Source `TabCommand(action=..., url=..., tab_id=...)`: `action` is required;
the `validate_url` validator requires a (truthy) URL for `open`/`init`
and prepends `https://` when `^https?://` does not match.  There is no
validator on `tab_id`: it stays optional for every action. -/
def TabCommand.mk' (base : BaseCommand) (action : Option String)
    (url : Option String) (tab_id : Option Int) : Except String TabCommand :=
  match action with
  | none => .error "field required: action"
  | some s =>
    match TabAction.ofStr s with
    | .error e => .error e
    | .ok a =>
      if a = TabAction.«open» ∨ a = TabAction.init then
        match url with
        | none => .error "URL is required"
        | some u =>
          if u = "" then .error "URL is required"
          else if hasHttpScheme u then .ok ⟨base, a, some u, tab_id⟩
          else .ok ⟨base, a, some ("https://" ++ u), tab_id⟩
      else .ok ⟨base, a, url, tab_id⟩

structure GetTabsCommand extends BaseCommand where
deriving DecidableEq, Repr

inductive Command
  | mouseMove (c : MouseMoveCommand)
  | mouseClick (c : MouseClickCommand)
  | mouseScroll (c : MouseScrollCommand)
  | resetMouse (c : ResetMouseCommand)
  | keyboardType (c : KeyboardTypeCommand)
  | keyboardPress (c : KeyboardPressCommand)
  | screenshot (c : ScreenshotCommand)
  | tab (c : TabCommand)
  | getTabs (c : GetTabsCommand)
deriving DecidableEq, Repr

def Command.commandId : Command → Option String
  | .mouseMove c => c.command_id
  | .mouseClick c => c.command_id
  | .mouseScroll c => c.command_id
  | .resetMouse c => c.command_id
  | .keyboardType c => c.command_id
  | .keyboardPress c => c.command_id
  | .screenshot c => c.command_id
  | .tab c => c.command_id
  | .getTabs c => c.command_id

/-! ## The untyped dictionary form

`CmdDict` models the Python dict produced by `command.dict()` and consumed
by `parse_command` / sent over the wire.  A field that is `none` is an
absent key (for `Optional` pydantic fields with default `None`, absent and
null coincide); `duration`'s two-level option keeps absent (`none`,
default applies) distinct from null (`some none`). -/

structure CmdDict where
  type : Option String := none
  command_id : Option String := none
  timestamp : Option Rat := none
  dx : Option Int := none
  dy : Option Int := none
  duration : Option (Option Rat) := none
  button : Option String := none
  double : Option Bool := none
  count : Option Int := none
  direction : Option String := none
  amount : Option Int := none
  text : Option String := none
  key : Option String := none
  modifiers : Option (List String) := none
  tab_id : Option Int := none
  include_cursor : Option Bool := none
  quality : Option Int := none
  action : Option String := none
  url : Option String := none
deriving DecidableEq, Repr

def CmdDict.base (d : CmdDict) : BaseCommand := ⟨d.command_id, d.timestamp⟩

/-- Source `command.dict()` of each variant: every declared field of the model is
emitted (pydantic emits `None`-valued keys too); fields of other variants
are absent. -/
def Command.toDict : Command → CmdDict
  | .mouseMove c =>
    { type := some "mouse_move", command_id := c.command_id,
      timestamp := c.timestamp, dx := some c.dx, dy := some c.dy,
      duration := some c.duration }
  | .mouseClick c =>
    { type := some "mouse_click", command_id := c.command_id,
      timestamp := c.timestamp, button := some c.button.toStr,
      double := some c.double, count := some c.count }
  | .mouseScroll c =>
    { type := some "mouse_scroll", command_id := c.command_id,
      timestamp := c.timestamp, direction := some c.direction.toStr,
      amount := some c.amount }
  | .resetMouse c =>
    { type := some "reset_mouse", command_id := c.command_id,
      timestamp := c.timestamp }
  | .keyboardType c =>
    { type := some "keyboard_type", command_id := c.command_id,
      timestamp := c.timestamp, text := some c.text }
  | .keyboardPress c =>
    { type := some "keyboard_press", command_id := c.command_id,
      timestamp := c.timestamp, key := some c.key,
      modifiers := some c.modifiers }
  | .screenshot c =>
    { type := some "screenshot", command_id := c.command_id,
      timestamp := c.timestamp, tab_id := c.tab_id,
      include_cursor := some c.include_cursor, quality := some c.quality }
  | .tab c =>
    { type := some "tab", command_id := c.command_id,
      timestamp := c.timestamp, action := some c.action.toStr,
      url := c.url, tab_id := c.tab_id }
  | .getTabs c =>
    { type := some "get_tabs", command_id := c.command_id,
      timestamp := c.timestamp }

/-- Source `parse_command(data)`: dispatch on the (truthy) `type` field to exactly
one variant constructor; unknown kinds fail; extra fields are ignored
(pydantic default `Extra.ignore`). -/
def parse_command (d : CmdDict) : Except String Command :=
  match d.type with
  | none => .error "Command must have 'type' field"
  | some t =>
    if t = "" then .error "Command must have 'type' field"
    else if t = "mouse_move" then
      (MouseMoveCommand.mk' d.base d.dx d.dy d.duration).map .mouseMove
    else if t = "mouse_click" then
      (MouseClickCommand.mk' d.base d.button d.double d.count).map .mouseClick
    else if t = "mouse_scroll" then
      (MouseScrollCommand.mk' d.base d.direction d.amount).map .mouseScroll
    else if t = "reset_mouse" then
      .ok (.resetMouse ⟨d.base⟩)
    else if t = "keyboard_type" then
      (KeyboardTypeCommand.mk' d.base d.text).map .keyboardType
    else if t = "keyboard_press" then
      (KeyboardPressCommand.mk' d.base d.key d.modifiers).map .keyboardPress
    else if t = "screenshot" then
      (ScreenshotCommand.mk' d.base d.tab_id d.include_cursor d.quality).map .screenshot
    else if t = "tab" then
      (TabCommand.mk' d.base d.action d.url d.tab_id).map .tab
    else if t = "get_tabs" then
      .ok (.getTabs ⟨d.base⟩)
    else .error ("Unknown command type: " ++ t)

/-! ## Responses and the WebSocket hub (`server/websocket/manager.py`)

`CommandResponse` carries `success`, `command_id`, `message`, `error` and an
opaque `data` dict, modelled as an association list of tab-identifier-valued
entries (the only values the processor ever reads are tab identifiers); the
informational `timestamp` field is omitted.

An inbound wire frame is modelled by `Frame`: `type` is the frame's (truthy)
`type` value, `commandIdKey` records whether the key `"command_id"` is
present at all (Python's `"command_id" in data`), and `commandId` is the
truthy string value of that key, if any. -/

structure CommandResponse where
  success : Bool
  command_id : Option String := none
  message : Option String := none
  error : Option String := none
  data : Option (List (String × Int)) := none
deriving DecidableEq, Repr

structure Frame where
  type : Option String := none
  commandIdKey : Bool := false
  commandId : Option String := none
deriving DecidableEq, Repr

/-- Hub state: `connections` is the set of live connections, each recorded
by whether a `send` on it currently succeeds; `response_waiters` is the
pending-call table, keyed by command id (the futures themselves are
represented by their ids; resolution is reported as an event). -/
structure HubState where
  connections : List Bool
  response_waiters : List String
deriving DecidableEq, Repr

/-- Source `WebSocketManager._handle_command_response(data)`: if the frame's
`command_id` is truthy and present in `response_waiters`, pop the future and
resolve it with the whole frame (reported as a `(id, frame)` event);
otherwise log "unknown command_id" and do nothing. -/
def handleCommandResponse (f : Frame) (st : HubState) :
    HubState × Option (String × Frame) :=
  match f.commandId with
  | some cid =>
    if cid ∈ st.response_waiters then
      (⟨st.connections, st.response_waiters.erase cid⟩, some (cid, f))
    else (st, none)
  | none => (st, none)

/-- An outbound reaction of `_handle_message` other than resolving a future. -/
inductive HubReply
  | pong
deriving DecidableEq, Repr

/-- Source `WebSocketManager._handle_message`: route by the `type` field; a frame
whose type is none of `command_response` / `event` / `ping` but which has a
`command_id` key is treated as a command response. -/
def handleMessage (f : Frame) (st : HubState) :
    HubState × Option (String × Frame) × Option HubReply :=
  if f.type = some "command_response" then
    let (st', ev) := handleCommandResponse f st
    (st', ev, none)
  else if f.type = some "event" then
    (st, none, none)
  else if f.type = some "ping" then
    (st, none, some .pong)
  else if f.commandIdKey then
    let (st', ev) := handleCommandResponse f st
    (st', ev, none)
  else
    (st, none, none)

/-- The errors `send_command` raises (`ConnectionError` twice, `TimeoutError`),
with the exact `str(e)` message `CommandProcessor.execute` later stores. -/
inductive HubError
  | noConnections
  | sendFailed
  | timeout
deriving DecidableEq, Repr

/-- Source `config.command_timeout` (seconds), from `server/core/config.py`. -/
def command_timeout : Nat := 30

def HubError.msg : HubError → String
  | .noConnections => "No WebSocket connections available"
  | .sendFailed => "Failed to send command to any connection"
  | .timeout => "Command timeout after " ++ toString command_timeout ++ "s"

/-- Source `if not command_dict.get("command_id")`: a missing or empty id is
replaced by a fresh uuid. -/
def resolveCid (d : CmdDict) (fresh : String) : String :=
  match d.command_id with
  | some c => if c = "" then fresh else c
  | none => fresh

/-- Source `WebSocketManager.send_command(command)`, linearized: the single-threaded
event loop either delivers a matching response before the timeout
(`arrival = some resp`, in which case `_handle_command_response` has popped
the waiter and the future's value is returned) or it does not
(`arrival = none`, in which case `wait_for` raises `TimeoutError` and the
`except` branch pops the waiter).  `fresh` is the uuid drawn when the
command dict carries no truthy id.

Steps, in source order: fail with `ConnectionError` if the connection set is
empty; fill in the id; create the future in `response_waiters`; send on every
connection; if no send succeeded, pop the waiter and fail; otherwise await. -/
def sendCommand (st : HubState) (d : CmdDict) (fresh : String)
    (arrival : Option CommandResponse) : HubState × Except HubError CommandResponse :=
  if st.connections = [] then
    (st, .error .noConnections)
  else
    let cid := resolveCid d fresh
    let waiters1 := cid :: st.response_waiters
    let sent := st.connections.any (· = true)
    if ¬ sent then
      (⟨st.connections, waiters1.erase cid⟩, .error .sendFailed)
    else
      match arrival with
      | some resp => (⟨st.connections, waiters1.erase cid⟩, .ok resp)
      | none => (⟨st.connections, waiters1.erase cid⟩, .error .timeout)

/-- Source `WebSocketManager.is_connected`. -/
def isConnected (st : HubState) : Bool := st.connections.length > 0

/-! ## The command processor (`server/core/processor.py`) -/

/-- Python's `hasattr(command, 'tab_id')`: among the command models, only
`ScreenshotCommand` and `TabCommand` declare a `tab_id` field. -/
def Command.hasTabIdAttr : Command → Bool
  | .screenshot _ => true
  | .tab _ => true
  | _ => false

/-- The command's `tab_id` attribute, when the attribute exists. -/
def Command.tabIdAttr : Command → Option Int
  | .screenshot c => c.tab_id
  | .tab c => c.tab_id
  | _ => none

/-- Source `CommandProcessor._prepare_command_dict(command)`: start from
`command.dict()`; auto-fill `tab_id` only when the command *has* a `tab_id`
attribute that is `None`, a current tab is set, and the command is neither a
`TabCommand` nor a `GetTabsCommand`. -/
def prepareCommandDict (currentTab : Option Int) (c : Command) : CmdDict :=
  let d := c.toDict
  let shouldFill :=
    if c.hasTabIdAttr ∧ c.tabIdAttr = none ∧ currentTab ≠ none then
      match c with
      | .tab _ => false
      | .getTabs _ => false
      | _ => true
    else false
  if shouldFill then { d with tab_id := currentTab } else d

/-- Source `CommandProcessor._send_prepared_command`: prepare the dict, parse it
back through the model for validation, and hand the re-serialized dict to
`send_command`.  Returns the parsed command (whose `.dict()` is what is
actually broadcast). -/
def sendPreparedCommand (currentTab : Option Int) (st : HubState) (c : Command)
    (fresh : String) (arrival : Option CommandResponse) :
    Except String (Command × HubState × Except HubError CommandResponse) :=
  match parse_command (prepareCommandDict currentTab c) with
  | .error e => .error e
  | .ok pc =>
    let (st', r) := sendCommand st pc.toDict fresh arrival
    .ok (pc, st', r)

/-- Truthiness of `command.tab_id` in Python: non-`None` and non-zero. -/
def truthyTabId : Option Int → Bool
  | none => false
  | some t => t ≠ 0

/-- Truthiness of `response.data` followed by `'k' in response.data`:
the dict must be non-`None` and non-empty, and contain the key. -/
def dataHasKey (data : Option (List (String × Int))) (k : String) : Bool :=
  match data with
  | none => false
  | some l => ¬ l = [] ∧ (l.lookup k).isSome

def dataGet (data : Option (List (String × Int))) (k : String) : Option Int :=
  (data.getD []).lookup k

/-- The tab-state update of `CommandProcessor._execute_tab_command`, run only
on a response: on success, `switch` with a truthy `tab_id` sets the current
tab to it; `init` / `open` set it to `response.data['tabId']`, falling back
to `response.data['tab_id']`, when the (truthy) data dict has such a key. -/
def updateCurrentTab (currentTab : Option Int) (action : TabAction)
    (cmdTabId : Option Int) (resp : CommandResponse) : Option Int :=
  if resp.success then
    if action = .switch ∧ truthyTabId cmdTabId then cmdTabId
    else if action = .init then
      if dataHasKey resp.data "tabId" then dataGet resp.data "tabId"
      else if dataHasKey resp.data "tab_id" then dataGet resp.data "tab_id"
      else currentTab
    else if action = .«open» then
      if dataHasKey resp.data "tabId" then dataGet resp.data "tabId"
      else if dataHasKey resp.data "tab_id" then dataGet resp.data "tab_id"
      else currentTab
    else currentTab
  else currentTab

/-- Source `CommandProcessor.execute(command)`: route to the per-kind handler (all
of which call `_send_prepared_command`; the tab handler additionally updates
the current tab), converting any exception into a failed `CommandResponse`
that carries `str(e)` and the command's own id.  Returns the new current
tab, the new hub state, and the response handed back to the caller. -/
def execute (currentTab : Option Int) (st : HubState) (c : Command)
    (fresh : String) (arrival : Option CommandResponse) :
    Option Int × HubState × CommandResponse :=
  match sendPreparedCommand currentTab st c fresh arrival with
  | .error e =>
    (currentTab, st, { success := false, command_id := c.commandId, error := some e })
  | .ok (_, st', .error he) =>
    (currentTab, st', { success := false, command_id := c.commandId, error := some he.msg })
  | .ok (_, st', .ok resp) =>
    match c with
    | .tab tc => (updateCurrentTab currentTab tc.action tc.tab_id resp, st', resp)
    | _ => (currentTab, st', resp)

/-- Source `CommandProcessor.health_check()`: if any WebSocket connection exists,
execute a `GetTabsCommand()` and return `response.success`; otherwise return
`True`. -/
def healthCheck (currentTab : Option Int) (st : HubState) (fresh : String)
    (arrival : Option CommandResponse) : Bool :=
  if isConnected st then
    (execute currentTab st (.getTabs ⟨none, none⟩) fresh arrival).2.2.success
  else
    true

/-! ## Coordinate mapping (`server/core/coordinates.py`)

Python floats are modelled as exact rationals; `int(q)` is truncation
toward zero (`pyint`). -/

/-- Python `int()` applied to a number: truncation toward zero. -/
def pyint (q : ℚ) : Int := if 0 ≤ q then ⌊q⌋ else ⌈q⌉

structure CoordinateMapping where
  preset_width : Int
  preset_height : Int
  actual_width : Int
  actual_height : Int
  viewport_width : Option Int := none
  viewport_height : Option Int := none
deriving DecidableEq, Repr

/-- The dataclass constructor together with `__post_init__`, which raises
`ValueError` unless all four dimensions are positive. -/
def CoordinateMapping.make (pw ph aw ah : Int) (vw vh : Option Int) :
    Except String CoordinateMapping :=
  if pw ≤ 0 ∨ ph ≤ 0 then .error "Preset dimensions must be positive"
  else if aw ≤ 0 ∨ ah ≤ 0 then .error "Actual dimensions must be positive"
  else .ok ⟨pw, ph, aw, ah, vw, vh⟩

def CoordinateMapping.scale_x (m : CoordinateMapping) : ℚ :=
  (m.actual_width : ℚ) / (m.preset_width : ℚ)

def CoordinateMapping.scale_y (m : CoordinateMapping) : ℚ :=
  (m.actual_height : ℚ) / (m.preset_height : ℚ)

/-- Source `preset_to_actual`: clamp to preset bounds, scale, truncate, clamp to
actual bounds. -/
def CoordinateMapping.preset_to_actual (m : CoordinateMapping) (x y : Int) :
    Int × Int :=
  let x1 := max 0 (min x (m.preset_width - 1))
  let y1 := max 0 (min y (m.preset_height - 1))
  let ax := pyint ((x1 : ℚ) * m.scale_x)
  let ay := pyint ((y1 : ℚ) * m.scale_y)
  (max 0 (min ax (m.actual_width - 1)), max 0 (min ay (m.actual_height - 1)))

/-- Source `actual_to_preset`: clamp to actual bounds, divide by the scale (a
non-positive scale yields 0 instead of dividing), truncate, clamp to preset
bounds. -/
def CoordinateMapping.actual_to_preset (m : CoordinateMapping) (x y : Int) :
    Int × Int :=
  let x1 := max 0 (min x (m.actual_width - 1))
  let y1 := max 0 (min y (m.actual_height - 1))
  let px := if 0 < m.scale_x then pyint ((x1 : ℚ) / m.scale_x) else 0
  let py := if 0 < m.scale_y then pyint ((y1 : ℚ) / m.scale_y) else 0
  (max 0 (min px (m.preset_width - 1)), max 0 (min py (m.preset_height - 1)))

/-- Source `relative_preset_to_actual`: scale a delta, no clamping. -/
def CoordinateMapping.relative_preset_to_actual (m : CoordinateMapping)
    (dx dy : Int) : Int × Int :=
  (pyint ((dx : ℚ) * m.scale_x), pyint ((dy : ℚ) * m.scale_y))

/-- Source `GetTabsCommand()` with all defaults. -/
def gtabs : Command := .getTabs ⟨none, none⟩

/-- A hub state with one live connection and an empty waiter table. -/
def stOne : HubState := ⟨[true], []⟩

/-- A hub state with no connections. -/
def stNoConn : HubState := ⟨[], []⟩

/-- The invariants every constructed (hence valid) command satisfies —
exactly what the pydantic field bounds and validators guarantee about
*stored* values. -/
def Command.valid : Command → Bool
  | .mouseMove c =>
    decide (-5000 ≤ c.dx) && decide (c.dx ≤ 5000) &&
    decide (-5000 ≤ c.dy) && decide (c.dy ≤ 5000) &&
    (match c.duration with
     | none => true
     | some d => decide (0 < d) && decide (d ≤ 5))
  | .mouseClick c => decide (1 ≤ c.count) && decide (c.count ≤ 3)
  | .mouseScroll c => decide (1 ≤ c.amount) && decide (c.amount ≤ 1000)
  | .resetMouse _ => true
  | .keyboardType c =>
    decide (c.text.length ≤ 1000) && decide (validate_text c.text = c.text)
  | .keyboardPress c => decide (c.key.length ≤ 50)
  | .screenshot c => decide (1 ≤ c.quality) && decide (c.quality ≤ 100)
  | .tab c =>
    match c.action, c.url with
    | .«open», some u => hasHttpScheme u
    | .«open», none => false
    | .init, some u => hasHttpScheme u
    | .init, none => false
    | _, _ => true
  | .getTabs _ => true

/-! ## Theorems -/

/-- C1: a dispatch whose correlation id receives no matching inbound result
within the timeout returns a failed (timeout) result; the pending-call entry
for that id is removed from the waiter table; a late response frame carrying
that id is dropped by the inbound handler with no observable effect; and
`execute` surfaces the timeout as a failed `CommandResponse`. -/
theorem timeout_removes_pending_and_drops_late_response
    (currentTab : Option Int) (st : HubState) (c pc : Command) (fresh : String)
    (hparse : parse_command (prepareCommandDict currentTab c) = .ok pc)
    (hne : ¬ st.connections = [])
    (hsent : st.connections.any (· = true) = true)
    (hfresh : resolveCid pc.toDict fresh ∉ st.response_waiters) :
    (sendCommand st pc.toDict fresh none).2 = .error .timeout ∧
    (sendCommand st pc.toDict fresh none).1.response_waiters = st.response_waiters ∧
    handleCommandResponse
        ⟨some "command_response", true, some (resolveCid pc.toDict fresh)⟩
        (sendCommand st pc.toDict fresh none).1
      = ((sendCommand st pc.toDict fresh none).1, none) ∧
    execute currentTab st c fresh none
      = (currentTab, (sendCommand st pc.toDict fresh none).1,
         { success := false, command_id := c.commandId,
           error := some HubError.timeout.msg }) := by
  have hS : sendCommand st pc.toDict fresh none = (st, .error .timeout) := by
    unfold sendCommand
    rw [if_neg hne, hsent]
    simp [List.erase_cons_head]
  refine ⟨by rw [hS], by rw [hS], ?_, ?_⟩
  · rw [hS]
    unfold handleCommandResponse
    simp only [if_neg hfresh]
  · unfold execute sendPreparedCommand
    rw [hparse]
    simp [hS]

/-- C2: a command dispatched while the connection set is empty fails with
the "no peer" connection error; `execute` surfaces it as a failed
`CommandResponse` (never a raw exception); the hub state — in particular
the waiter table — is left exactly as it was (no `PendingCall` created). -/
theorem empty_connections_no_peer_no_pending
    (currentTab : Option Int) (st : HubState) (c pc : Command) (fresh : String)
    (arrival : Option CommandResponse)
    (hparse : parse_command (prepareCommandDict currentTab c) = .ok pc)
    (hempty : st.connections = []) :
    sendCommand st pc.toDict fresh arrival = (st, .error .noConnections) ∧
    HubError.noConnections.msg = "No WebSocket connections available" ∧
    execute currentTab st c fresh arrival
      = (currentTab, st,
         { success := false, command_id := c.commandId,
           error := some "No WebSocket connections available" }) := by
  have hS : sendCommand st pc.toDict fresh arrival = (st, .error .noConnections) := by
    unfold sendCommand
    rw [if_pos hempty]
  have hmsg : HubError.noConnections.msg = "No WebSocket connections available" := by
    unfold HubError.msg
    rfl
  have hexec : execute currentTab st c fresh arrival
      = (currentTab, st,
         { success := false, command_id := c.commandId,
           error := some "No WebSocket connections available" }) := by
    unfold execute sendPreparedCommand
    rw [hparse]
    simp [hS, hmsg]
  exact ⟨hS, hmsg, hexec⟩

/-- C9: an inbound frame whose `type` is none of `command_response`, `event`,
`ping` but which has a `command_id` key is handled exactly like a
`command_response` frame: same state change, same resolution event, no
reply; in particular, when a pending call exists for the frame's truthy
command id it is popped and resolved with the frame's data. -/
theorem untyped_frame_with_command_id_is_response
    (f : Frame) (st : HubState)
    (h1 : ¬ f.type = some "command_response")
    (h2 : ¬ f.type = some "event")
    (h3 : ¬ f.type = some "ping")
    (h4 : f.commandIdKey = true) :
    handleMessage f st
      = ((handleCommandResponse f st).1, (handleCommandResponse f st).2, none) ∧
    (∀ cid, f.commandId = some cid → cid ∈ st.response_waiters →
      (handleMessage f st).1 = ⟨st.connections, st.response_waiters.erase cid⟩ ∧
      (handleMessage f st).2.1 = some (cid, f)) := by
  have hM : handleMessage f st
      = ((handleCommandResponse f st).1, (handleCommandResponse f st).2, none) := by
    unfold handleMessage
    rw [if_neg h1, if_neg h2, if_neg h3, if_pos (by simp [h4])]
  refine ⟨hM, ?_⟩
  intro cid hcid hmem
  rw [hM]
  unfold handleCommandResponse
  rw [hcid]
  simp [if_pos hmem]

/-- Preparing and re-parsing a `GetTabsCommand` is the identity: it has no
`tab_id` attribute, so `_prepare_command_dict` never rewrites it, and its
dict parses back unchanged. -/
theorem parse_prepared_getTabs (currentTab : Option Int) (b : BaseCommand) :
    parse_command (prepareCommandDict currentTab (.getTabs ⟨b⟩))
      = .ok (.getTabs ⟨b⟩) := by
  unfold prepareCommandDict
  simp [Command.hasTabIdAttr, parse_command, Command.toDict, CmdDict.base]

/-- Source `send_command` when no connection accepts the send: the waiter is popped
again and `ConnectionError` is raised. -/
theorem sendCommand_noSend (st : HubState) (d : CmdDict) (fresh : String)
    (arrival : Option CommandResponse) (hne : ¬ st.connections = [])
    (hA : st.connections.any (· = true) = false) :
    sendCommand st d fresh arrival = (st, .error .sendFailed) := by
  unfold sendCommand
  rw [if_neg hne, hA]
  simp [List.erase_cons_head]

/-- Source `send_command` when the send succeeds and a matching response arrives
before the timeout: the waiter is popped by the inbound handler and the
response is returned. -/
theorem sendCommand_ok (st : HubState) (d : CmdDict) (fresh : String)
    (resp : CommandResponse) (hne : ¬ st.connections = [])
    (hA : st.connections.any (· = true) = true) :
    sendCommand st d fresh (some resp) = (st, .ok resp) := by
  unfold sendCommand
  rw [if_neg hne, hA]
  simp [List.erase_cons_head]

/-- Source `send_command` when the send succeeds but no matching response arrives:
the waiter is popped and `TimeoutError` is raised. -/
theorem sendCommand_timedOut (st : HubState) (d : CmdDict) (fresh : String)
    (hne : ¬ st.connections = [])
    (hA : st.connections.any (· = true) = true) :
    sendCommand st d fresh none = (st, .error .timeout) := by
  unfold sendCommand
  rw [if_neg hne, hA]
  simp [List.erase_cons_head]

/-- C8: `health_check` returns `True` immediately when the connection set is
empty; with a peer connected it executes a `get_tabs` round trip and
returns its success flag — `false` when no response arrives (timeout or
send failure), `resp.success` when a response `resp` arrives. -/
theorem healthCheck_behavior (currentTab : Option Int) (st : HubState)
    (fresh : String) (arrival : Option CommandResponse) :
    (st.connections = [] → healthCheck currentTab st fresh arrival = true) ∧
    (¬ st.connections = [] → arrival = none →
      healthCheck currentTab st fresh arrival = false) ∧
    (∀ resp, st.connections.any (· = true) = true → arrival = some resp →
      healthCheck currentTab st fresh arrival = resp.success) := by
  refine ⟨?_, ?_, ?_⟩
  · intro hempty
    unfold healthCheck isConnected
    rw [hempty]
    simp
  · intro hne harr
    have hconn : isConnected st = true := by
      unfold isConnected
      simpa [List.length_pos] using hne
    unfold healthCheck
    rw [if_pos hconn]
    unfold execute sendPreparedCommand
    rw [parse_prepared_getTabs currentTab ⟨none, none⟩, harr]
    cases hA : st.connections.any (· = true)
    · simp [sendCommand_noSend _ _ _ _ hne hA]
    · simp [sendCommand_timedOut _ _ _ hne hA]
  · intro resp hany harr
    have hne : ¬ st.connections = [] := by
      intro hempty
      rw [hempty] at hany
      simp at hany
    have hconn : isConnected st = true := by
      unfold isConnected
      simpa [List.length_pos] using hne
    unfold healthCheck
    rw [if_pos hconn]
    unfold execute sendPreparedCommand
    rw [parse_prepared_getTabs currentTab ⟨none, none⟩, harr]
    simp [sendCommand_ok _ _ _ _ hne hany]

/-- Witness for C1: a concrete `get_tabs` dispatch on a one-connection hub
that never receives its response. -/
theorem timeout_removes_pending_and_drops_late_response_witness :
    (sendCommand stOne gtabs.toDict "u1" none).2 = .error .timeout ∧
    (sendCommand stOne gtabs.toDict "u1" none).1.response_waiters
      = stOne.response_waiters ∧
    handleCommandResponse
        ⟨some "command_response", true, some (resolveCid gtabs.toDict "u1")⟩
        (sendCommand stOne gtabs.toDict "u1" none).1
      = ((sendCommand stOne gtabs.toDict "u1" none).1, none) ∧
    execute none stOne gtabs "u1" none
      = (none, (sendCommand stOne gtabs.toDict "u1" none).1,
         { success := false, command_id := gtabs.commandId,
           error := some HubError.timeout.msg }) :=
  timeout_removes_pending_and_drops_late_response none stOne gtabs gtabs "u1"
    (by rfl) (by decide) (by rfl) (by decide)

/-- Witness for C2: a concrete `get_tabs` dispatch on a hub with no
connections. -/
theorem empty_connections_no_peer_no_pending_witness :
    sendCommand stNoConn gtabs.toDict "u1" none = (stNoConn, .error .noConnections) ∧
    HubError.noConnections.msg = "No WebSocket connections available" ∧
    execute none stNoConn gtabs "u1" none
      = (none, stNoConn,
         { success := false, command_id := gtabs.commandId,
           error := some "No WebSocket connections available" }) :=
  empty_connections_no_peer_no_pending none stNoConn gtabs gtabs "u1" none
    (by rfl) (by rfl)

/-- Witness for C9: a typeless frame carrying `command_id = "id7"` resolves
the pending call for `"id7"`. -/
theorem untyped_frame_with_command_id_is_response_witness :
    (handleMessage ⟨none, true, some "id7"⟩ ⟨[], ["id7"]⟩
      = ((handleCommandResponse ⟨none, true, some "id7"⟩ ⟨[], ["id7"]⟩).1,
         (handleCommandResponse ⟨none, true, some "id7"⟩ ⟨[], ["id7"]⟩).2, none)) ∧
    (handleMessage ⟨none, true, some "id7"⟩ ⟨[], ["id7"]⟩).1
      = ⟨[], (["id7"] : List String).erase "id7"⟩ ∧
    (handleMessage ⟨none, true, some "id7"⟩ ⟨[], ["id7"]⟩).2.1
      = some ("id7", ⟨none, true, some "id7"⟩) := by
  have h := untyped_frame_with_command_id_is_response ⟨none, true, some "id7"⟩
    ⟨[], ["id7"]⟩ (by decide) (by decide) (by decide) (by rfl)
  exact ⟨h.1, (h.2 "id7" rfl (by decide)).1, (h.2 "id7" rfl (by decide)).2⟩

/-- Witness for C8: concrete health checks — no peer, peer with no
response, and peer answering with a failed and a successful response. -/
theorem healthCheck_behavior_witness :
    healthCheck none stNoConn "u1" none = true ∧
    healthCheck none stOne "u1" none = false ∧
    healthCheck none stOne "u1" (some { success := true }) = true ∧
    healthCheck none stOne "u1" (some { success := false }) = false := by
  refine ⟨(healthCheck_behavior none stNoConn "u1" none).1 (by rfl),
          (healthCheck_behavior none stOne "u1" none).2.1 (by decide) rfl,
          (healthCheck_behavior none stOne "u1" (some { success := true })).2.2
            { success := true } (by decide) rfl,
          (healthCheck_behavior none stOne "u1" (some { success := false })).2.2
            { success := false } (by decide) rfl⟩

/-- C3 (code bug): a `mouse_move` command executed with `current_tab_id = 5`
is dispatched *without* any tab id — `MouseMoveCommand` (like all mouse,
keyboard and reset-mouse models) declares no `tab_id` field, so the
`hasattr(command, 'tab_id')` guard in `_prepare_command_dict` blocks the
auto-fill the code's own comments promise; only `ScreenshotCommand` is
actually auto-filled.  The prepared dict is the command's own dict, its
`tab_id` key is absent, and it re-parses to the identical command. -/
theorem mouse_move_dispatched_without_tab_id :
    prepareCommandDict (some 5) (.mouseMove ⟨⟨none, none⟩, 10, -10, none⟩)
      = Command.toDict (.mouseMove ⟨⟨none, none⟩, 10, -10, none⟩) ∧
    (prepareCommandDict (some 5)
        (.mouseMove ⟨⟨none, none⟩, 10, -10, none⟩)).tab_id = none ∧
    parse_command (prepareCommandDict (some 5)
        (.mouseMove ⟨⟨none, none⟩, 10, -10, none⟩))
      = .ok (.mouseMove ⟨⟨none, none⟩, 10, -10, none⟩) ∧
    (prepareCommandDict (some 5)
        (.keyboardType ⟨⟨none, none⟩, "hi"⟩)).tab_id = none ∧
    (prepareCommandDict (some 5)
        (.screenshot ⟨⟨none, none⟩, none, true, 90⟩)).tab_id = some 5 := by
  refine ⟨?_, ?_, ?_, ?_, ?_⟩ <;> rfl

/-- C4 counterexample: a successful `switch` tab-operation whose explicit
tab id is `0` does **not** set `current_tab_id` to `0` — the code guards the
update with Python truthiness (`command.tab_id`), and `0` is falsy, so the
current tab stays `1`. -/
theorem switch_to_tab_zero_leaves_current_unchanged :
    execute (some 1) stOne (.tab ⟨⟨none, none⟩, .switch, none, some 0⟩) "u1"
        (some { success := true })
      = (some 1, stOne, { success := true }) ∧
    ¬ (execute (some 1) stOne (.tab ⟨⟨none, none⟩, .switch, none, some 0⟩) "u1"
        (some { success := true })).1 = some 0 := by
  refine ⟨?_, ?_⟩ <;> decide

/-- C4 (amended): for an executed tab-operation whose dispatch yields
response `resp`, the new current tab is `updateCurrentTab`; on a failed
response it is unchanged; on a successful `switch` carrying a non-null,
nonzero tab id it becomes that id; on a successful `init`/`open` it becomes
the id the response payload reports under `tabId`, else under `tab_id`. -/
theorem tab_state_update_amended
    (currentTab : Option Int) (st : HubState) (tc : TabCommand) (pc : Command)
    (fresh : String) (resp : CommandResponse)
    (hparse : parse_command (prepareCommandDict currentTab (.tab tc)) = .ok pc)
    (hne : ¬ st.connections = [])
    (hany : st.connections.any (· = true) = true) :
    execute currentTab st (.tab tc) fresh (some resp)
      = (updateCurrentTab currentTab tc.action tc.tab_id resp, st, resp) ∧
    (resp.success = false →
      updateCurrentTab currentTab tc.action tc.tab_id resp = currentTab) ∧
    (resp.success = true → tc.action = .switch →
      ∀ t : Int, tc.tab_id = some t → ¬ t = 0 →
        updateCurrentTab currentTab tc.action tc.tab_id resp = some t) ∧
    (resp.success = true → (tc.action = .init ∨ tc.action = .«open») →
      dataHasKey resp.data "tabId" = true →
        updateCurrentTab currentTab tc.action tc.tab_id resp
          = dataGet resp.data "tabId") ∧
    (resp.success = true → (tc.action = .init ∨ tc.action = .«open») →
      dataHasKey resp.data "tabId" = false → dataHasKey resp.data "tab_id" = true →
        updateCurrentTab currentTab tc.action tc.tab_id resp
          = dataGet resp.data "tab_id") := by
  refine ⟨?_, ?_, ?_, ?_, ?_⟩
  · unfold execute sendPreparedCommand
    rw [hparse]
    simp [sendCommand_ok _ _ _ _ hne hany]
  · intro hfail
    unfold updateCurrentTab
    rw [hfail]
    simp
  · intro hs hsw t ht htz
    unfold updateCurrentTab
    rw [hs, hsw, ht]
    simp [truthyTabId, htz]
  · intro hs hio hk
    unfold updateCurrentTab
    rw [hs]
    rcases hio with h | h <;> rw [h] <;> simp [hk]
  · intro hs hio hk1 hk2
    unfold updateCurrentTab
    rw [hs]
    rcases hio with h | h <;> rw [h] <;> simp [hk1, hk2]

/-- Witness for the amended C4: a successful `switch` to tab 7 sets the
current tab to 7. -/
theorem tab_state_update_amended_witness :
    execute (some 1) stOne (.tab ⟨⟨none, none⟩, .switch, none, some 7⟩) "u1"
        (some { success := true })
      = (some 7, stOne, { success := true }) := by
  have h := tab_state_update_amended (some 1) stOne
      ⟨⟨none, none⟩, .switch, none, some 7⟩
      (.tab ⟨⟨none, none⟩, .switch, none, some 7⟩) "u1" { success := true }
      (by rfl) (by decide) (by rfl)
  rw [h.1, h.2.2.1 rfl rfl 7 rfl (by decide)]

/-- C5 counterexample: a `tab` command of action `close` (resp. `switch`)
with no tab identifier is accepted by construction — there is no validator
on `tab_id`, so the claim that construction fails is false. -/
theorem tab_close_switch_without_tab_id_accepted :
    TabCommand.mk' ⟨none, none⟩ (some "close") none none
      = .ok ⟨⟨none, none⟩, .close, none, none⟩ ∧
    TabCommand.mk' ⟨none, none⟩ (some "switch") none none
      = .ok ⟨⟨none, none⟩, .switch, none, none⟩ := by
  refine ⟨?_, ?_⟩ <;> rfl

/-- C5 (amended): `tab` construction fails for `open`/`init` with a missing
or empty URL; a URL lacking an `http(s)://` scheme is accepted and
normalized by prepending `https://`; `close`/`switch`/`list` impose no
requirement on `tab_id` (it is optional and unvalidated). -/
theorem tab_command_construction_validation
    (base : BaseCommand) (tid : Option Int) (u : String) :
    (∃ e, TabCommand.mk' base (some "open") none tid = .error e) ∧
    (∃ e, TabCommand.mk' base (some "init") none tid = .error e) ∧
    (∃ e, TabCommand.mk' base (some "open") (some "") tid = .error e) ∧
    (∃ e, TabCommand.mk' base (some "init") (some "") tid = .error e) ∧
    (hasHttpScheme u = false → ¬ u = "" →
      TabCommand.mk' base (some "open") (some u) tid
          = .ok ⟨base, .«open», some ("https://" ++ u), tid⟩ ∧
      TabCommand.mk' base (some "init") (some u) tid
          = .ok ⟨base, .init, some ("https://" ++ u), tid⟩) ∧
    (hasHttpScheme u = true →
      TabCommand.mk' base (some "open") (some u) tid
          = .ok ⟨base, .«open», some u, tid⟩ ∧
      TabCommand.mk' base (some "init") (some u) tid
          = .ok ⟨base, .init, some u, tid⟩) ∧
    TabCommand.mk' base (some "close") none tid = .ok ⟨base, .close, none, tid⟩ ∧
    TabCommand.mk' base (some "switch") none tid = .ok ⟨base, .switch, none, tid⟩ ∧
    TabCommand.mk' base (some "list") none tid = .ok ⟨base, .list, none, tid⟩ := by
  have hne : hasHttpScheme u = true → ¬ u = "" := by
    intro h he
    rw [he] at h
    exact absurd h (by decide)
  refine ⟨⟨_, rfl⟩, ⟨_, rfl⟩, ⟨_, rfl⟩, ⟨_, rfl⟩, ?_, ?_, rfl, rfl, rfl⟩
  · intro h1 h2
    constructor <;> simp [TabCommand.mk', TabAction.ofStr, h1, h2]
  · intro h1
    constructor <;> simp [TabCommand.mk', TabAction.ofStr, h1, hne h1]

/-- Witness for the amended C5 at concrete inputs. -/
theorem tab_command_construction_validation_witness :
    (∃ e, TabCommand.mk' ⟨none, none⟩ (some "open") none none = .error e) ∧
    TabCommand.mk' ⟨none, none⟩ (some "open") (some "example.com") none
      = .ok ⟨⟨none, none⟩, .«open», some "https://example.com", none⟩ := by
  have h := tab_command_construction_validation ⟨none, none⟩ none "example.com"
  refine ⟨h.1, ?_⟩
  rw [(h.2.2.2.2.1 (by decide) (by decide)).1]
  rfl

/-- C10 counterexample: carriage return `\x0d` is a control character other
than newline and tab, it is not in the stripped ranges, and it survives
`keyboard_type` validation into the stored text. -/
theorem carriage_return_survives_validation :
    KeyboardTypeCommand.mk' ⟨none, none⟩ (some "\x0d")
      = .ok ⟨⟨none, none⟩, "\x0d"⟩ ∧
    '\x0d' ∈ ("\x0d" : String).data ∧
    '\x0d'.toNat < 32 ∧ ¬ '\x0d' = '\n' ∧ ¬ '\x0d' = '\t' := by
  refine ⟨rfl, ?_, ?_, ?_, ?_⟩ <;> decide

/-- C10 (amended): `keyboard_type` construction succeeds on any text of
length ≤ 1000 — control characters never cause rejection — and the stored
text contains no control characters other than tab (9), newline (10) and
carriage return (13): exactly the ranges
`\x00-\x08, \x0b, \x0c, \x0e-\x1f, \x7f` are silently removed. -/
theorem keyboard_type_strips_only_listed_controls (base : BaseCommand)
    (s : String) (h : s.length ≤ 1000) :
    KeyboardTypeCommand.mk' base (some s) = .ok ⟨base, validate_text s⟩ ∧
    (∀ c ∈ (validate_text s).data, isStrippedCtl c = false) ∧
    (∀ c ∈ (validate_text s).data, (c.toNat < 32 ∨ c.toNat = 127) →
      c.toNat = 9 ∨ c.toNat = 10 ∨ c.toNat = 13) ∧
    (∀ s2 : String, KeyboardTypeCommand.mk' base (some s2)
        = .ok ⟨base, validate_text s2⟩ ∨ 1000 < s2.length) := by
  have hmem : ∀ c ∈ (validate_text s).data, isStrippedCtl c = false := by
    intro c hc
    unfold validate_text at hc
    rw [List.mem_filter] at hc
    simpa using hc.2
  refine ⟨?_, hmem, ?_, ?_⟩
  · simp only [KeyboardTypeCommand.mk']
    rw [if_pos h]
  · intro c hc hctl
    have h2 := hmem c hc
    unfold isStrippedCtl at h2
    simp only [Bool.or_eq_false_iff, decide_eq_false_iff_not, Bool.and_eq_false_iff] at h2
    omega
  · intro s2
    by_cases h2 : s2.length ≤ 1000
    · left
      simp only [KeyboardTypeCommand.mk']
      rw [if_pos h2]
    · right
      omega

/-- Witness for the amended C10: `"a\x00b"` is accepted and sanitized to
`"ab"`. -/
theorem keyboard_type_strips_only_listed_controls_witness :
    KeyboardTypeCommand.mk' ⟨none, none⟩ (some "a\x00b")
      = .ok ⟨⟨none, none⟩, validate_text "a\x00b"⟩ ∧
    validate_text "a\x00b" = "ab" :=
  ⟨(keyboard_type_strips_only_listed_controls ⟨none, none⟩ "a\x00b" (by decide)).1,
   by decide⟩

theorem hasHttpScheme_ne_empty (u : String) (h : hasHttpScheme u = true) :
    ¬ u = "" := by
  intro he
  rw [he] at h
  exact absurd h (by decide)

theorem mouseButton_ofStr_toStr (b : MouseButton) :
    MouseButton.ofStr b.toStr = .ok b := by
  cases b <;> rfl

theorem scrollDirection_ofStr_toStr (d : ScrollDirection) :
    ScrollDirection.ofStr d.toStr = .ok d := by
  cases d <;> rfl

theorem tabAction_ofStr_toStr (a : TabAction) :
    TabAction.ofStr a.toStr = .ok a := by
  cases a <;> rfl

/-- C7: serializing any valid command to its dict and parsing that dict
back through `parse_command` yields the identical command. -/
theorem serialize_parse_roundtrip (c : Command) (h : c.valid = true) :
    parse_command c.toDict = .ok c := by
  cases c with
  | mouseMove c =>
    obtain ⟨⟨cid, ts⟩, dx, dy, dur⟩ := c
    simp only [Command.valid, Bool.and_eq_true, decide_eq_true_eq] at h
    obtain ⟨⟨⟨⟨h1, h2⟩, h3⟩, h4⟩, h5⟩ := h
    cases dur with
    | none =>
      simp [parse_command, Command.toDict, CmdDict.base, MouseMoveCommand.mk',
        if_pos (And.intro h1 h2), if_pos (And.intro h3 h4), Except.map]
    | some d =>
      simp only [decide_eq_true_eq, Bool.and_eq_true] at h5
      simp [parse_command, Command.toDict, CmdDict.base, MouseMoveCommand.mk',
        if_pos (And.intro h1 h2), if_pos (And.intro h3 h4), if_pos h5, Except.map]
  | mouseClick c =>
    obtain ⟨⟨cid, ts⟩, b, dbl, cnt⟩ := c
    simp only [Command.valid, Bool.and_eq_true, decide_eq_true_eq] at h
    simp [parse_command, Command.toDict, CmdDict.base, MouseClickCommand.mk',
      mouseButton_ofStr_toStr, if_pos h, Except.map]
  | mouseScroll c =>
    obtain ⟨⟨cid, ts⟩, d, amt⟩ := c
    simp only [Command.valid, Bool.and_eq_true, decide_eq_true_eq] at h
    simp [parse_command, Command.toDict, CmdDict.base, MouseScrollCommand.mk',
      scrollDirection_ofStr_toStr, if_pos h, Except.map]
  | resetMouse c =>
    obtain ⟨⟨cid, ts⟩⟩ := c
    simp [parse_command, Command.toDict, CmdDict.base]
  | keyboardType c =>
    obtain ⟨⟨cid, ts⟩, txt⟩ := c
    simp only [Command.valid, Bool.and_eq_true, decide_eq_true_eq] at h
    obtain ⟨h1, h2⟩ := h
    simp [parse_command, Command.toDict, CmdDict.base, KeyboardTypeCommand.mk',
      if_pos h1, h2, Except.map]
  | keyboardPress c =>
    obtain ⟨⟨cid, ts⟩, k, mods⟩ := c
    simp only [Command.valid, decide_eq_true_eq] at h
    simp [parse_command, Command.toDict, CmdDict.base, KeyboardPressCommand.mk',
      if_pos h, Except.map]
  | screenshot c =>
    obtain ⟨⟨cid, ts⟩, tid, ic, q⟩ := c
    simp only [Command.valid, Bool.and_eq_true, decide_eq_true_eq] at h
    simp [parse_command, Command.toDict, CmdDict.base, ScreenshotCommand.mk',
      if_pos h, Except.map]
  | tab c =>
    obtain ⟨⟨cid, ts⟩, act, url, tid⟩ := c
    cases act <;> cases url <;>
      simp only [Command.valid] at h <;>
      simp_all [parse_command, Command.toDict, CmdDict.base, TabCommand.mk',
        TabAction.ofStr, TabAction.toStr, hasHttpScheme_ne_empty, Except.map]
  | getTabs c =>
    obtain ⟨⟨cid, ts⟩⟩ := c
    simp [parse_command, Command.toDict, CmdDict.base]

/-- C6 counterexample: with preset 3×3 and actual 1×1 (a legal mapping:
all dimensions positive), the in-bounds point (2,2) maps to (0,0) and back
to (0,0), which is 2 units away from the original — the one-unit round-trip
bound fails for downscaling mappings. -/
theorem coordinate_roundtrip_counterexample :
    CoordinateMapping.make 3 3 1 1 none none = .ok ⟨3, 3, 1, 1, none, none⟩ ∧
    CoordinateMapping.preset_to_actual ⟨3, 3, 1, 1, none, none⟩ 2 2 = (0, 0) ∧
    CoordinateMapping.actual_to_preset ⟨3, 3, 1, 1, none, none⟩ 0 0 = (0, 0) ∧
    ¬ ((2 : Int) - 0 ≤ 1) := by
  refine ⟨rfl, ?_, ?_, by decide⟩
  · unfold CoordinateMapping.preset_to_actual CoordinateMapping.scale_x
      CoordinateMapping.scale_y pyint
    norm_num
  · unfold CoordinateMapping.actual_to_preset CoordinateMapping.scale_x
      CoordinateMapping.scale_y pyint
    norm_num

/-- One axis of the round-trip: scaling an in-bounds coordinate up by
`A/P ≥ 1`, truncating, and scaling back down lands within one unit below
the original. -/
theorem axis_roundtrip (P A x : Int) (hP : 0 < P) (hPA : P ≤ A)
    (hx0 : 0 ≤ x) (hx : x ≤ P - 1) :
    0 ≤ pyint ((x : ℚ) * ((A : ℚ) / (P : ℚ))) ∧
    pyint ((x : ℚ) * ((A : ℚ) / (P : ℚ))) ≤ A - 1 ∧
    x - 1 ≤ pyint ((pyint ((x : ℚ) * ((A : ℚ) / (P : ℚ))) : ℚ) / ((A : ℚ) / (P : ℚ))) ∧
    pyint ((pyint ((x : ℚ) * ((A : ℚ) / (P : ℚ))) : ℚ) / ((A : ℚ) / (P : ℚ))) ≤ x := by
  have hA : (0 : Int) < A := lt_of_lt_of_le hP hPA
  have hPq : (0 : ℚ) < (P : ℚ) := by exact_mod_cast hP
  have hAq : (0 : ℚ) < (A : ℚ) := by exact_mod_cast hA
  set s : ℚ := (A : ℚ) / (P : ℚ) with hs_def
  have hs : 0 < s := div_pos hAq hPq
  have hs1 : 1 ≤ s := (one_le_div hPq).mpr (by exact_mod_cast hPA)
  have ht0 : 0 ≤ (x : ℚ) * s := mul_nonneg (by exact_mod_cast hx0) hs.le
  have hpy1 : pyint ((x : ℚ) * s) = ⌊(x : ℚ) * s⌋ := if_pos ht0
  set a : Int := ⌊(x : ℚ) * s⌋ with ha_def
  have ha0 : 0 ≤ a := Int.floor_nonneg.mpr ht0
  have haub : (x : ℚ) * s ≤ (A : ℚ) - s := by
    have h1 : (x : ℚ) ≤ (P : ℚ) - 1 := by
      exact_mod_cast hx
    have h2 : (x : ℚ) * s ≤ ((P : ℚ) - 1) * s :=
      mul_le_mul_of_nonneg_right h1 hs.le
    have h3 : ((P : ℚ) - 1) * s = (A : ℚ) - s := by
      rw [hs_def]
      field_simp
      ring
    rw [h3] at h2
    exact h2
  have haA : a ≤ A - 1 := by
    have : (x : ℚ) * s ≤ ((A - 1 : Int) : ℚ) := by
      push_cast
      have := hs1
      linarith
    calc a ≤ ⌊((A - 1 : Int) : ℚ)⌋ := Int.floor_le_floor this
    _ = A - 1 := Int.floor_intCast _
  have hu0 : 0 ≤ (a : ℚ) / s := div_nonneg (by exact_mod_cast ha0) hs.le
  have hpy2 : pyint ((a : ℚ) / s) = ⌊(a : ℚ) / s⌋ := if_pos hu0
  have hup : ⌊(a : ℚ) / s⌋ ≤ x := by
    have h1 : (a : ℚ) ≤ (x : ℚ) * s := Int.floor_le _
    have h2 : (a : ℚ) / s ≤ (x : ℚ) := by
      rw [div_le_iff₀ hs]
      exact h1
    calc ⌊(a : ℚ) / s⌋ ≤ ⌊((x : Int) : ℚ)⌋ := Int.floor_le_floor h2
    _ = x := Int.floor_intCast _
  have hlow : x - 1 ≤ ⌊(a : ℚ) / s⌋ := by
    apply Int.le_floor.mpr
    have h1 : (x : ℚ) * s - 1 < (a : ℚ) := Int.sub_one_lt_floor _
    have h2 : ((x : ℚ) * s - 1) / s ≤ (a : ℚ) / s :=
      div_le_div_of_nonneg_right h1.le hs.le
    have h3 : ((x : ℚ) * s - 1) / s = (x : ℚ) - 1 / s := by
      field_simp
    have h4 : (x : ℚ) - 1 ≤ (x : ℚ) - 1 / s := by
      have : 1 / s ≤ 1 := by
        rw [div_le_one hs]
        exact hs1
      linarith
    push_cast
    rw [h3] at h2
    linarith
  rw [hpy1, hpy2]
  exact ⟨ha0, haA, hlow, hup⟩

/-- C6 (amended): for any legally constructed mapping, both conversions are
total and clamp every input — in-bounds or not — into the target bounds;
and whenever the actual resolution is at least the preset resolution on
both axes (no downscaling), `preset_to_actual` followed by
`actual_to_preset` returns an in-bounds point within one unit of any
in-bounds input. -/
theorem coordinate_clamp_and_roundtrip
    (pw ph aw ah x y : Int) (vw vh : Option Int) (m : CoordinateMapping)
    (hm : CoordinateMapping.make pw ph aw ah vw vh = .ok m) :
    (∀ u v : Int,
      0 ≤ (m.preset_to_actual u v).1 ∧ (m.preset_to_actual u v).1 ≤ aw - 1 ∧
      0 ≤ (m.preset_to_actual u v).2 ∧ (m.preset_to_actual u v).2 ≤ ah - 1 ∧
      0 ≤ (m.actual_to_preset u v).1 ∧ (m.actual_to_preset u v).1 ≤ pw - 1 ∧
      0 ≤ (m.actual_to_preset u v).2 ∧ (m.actual_to_preset u v).2 ≤ ph - 1) ∧
    (pw ≤ aw → ph ≤ ah → 0 ≤ x → x ≤ pw - 1 → 0 ≤ y → y ≤ ph - 1 →
      x - 1 ≤ (m.actual_to_preset (m.preset_to_actual x y).1
                  (m.preset_to_actual x y).2).1 ∧
      (m.actual_to_preset (m.preset_to_actual x y).1
          (m.preset_to_actual x y).2).1 ≤ x ∧
      y - 1 ≤ (m.actual_to_preset (m.preset_to_actual x y).1
                  (m.preset_to_actual x y).2).2 ∧
      (m.actual_to_preset (m.preset_to_actual x y).1
          (m.preset_to_actual x y).2).2 ≤ y) := by
  unfold CoordinateMapping.make at hm
  split_ifs at hm with h1 h2
  have hpw : 0 < pw := by omega
  have hph : 0 < ph := by omega
  have haw : 0 < aw := by omega
  have hah : 0 < ah := by omega
  have hmeq : m = ⟨pw, ph, aw, ah, vw, vh⟩ := by
    cases hm
    rfl
  subst hmeq
  constructor
  · intro u v
    unfold CoordinateMapping.preset_to_actual CoordinateMapping.actual_to_preset
    simp only
    omega
  · intro hwa hha hx0 hx hy0 hy
    have hax := axis_roundtrip pw aw x hpw hwa hx0 hx
    have hay := axis_roundtrip ph ah y hph hha hy0 hy
    unfold CoordinateMapping.preset_to_actual
    unfold CoordinateMapping.scale_x CoordinateMapping.scale_y
    simp only
    have hcx : max 0 (min x (pw - 1)) = x := by omega
    have hcy : max 0 (min y (ph - 1)) = y := by omega
    rw [hcx, hcy]
    obtain ⟨hax0, haxA, haxl, haxu⟩ := hax
    obtain ⟨hay0, hayA, hayl, hayu⟩ := hay
    have hcax : max 0 (min (pyint ((x : ℚ) * ((aw : ℚ) / (pw : ℚ)))) (aw - 1))
        = pyint ((x : ℚ) * ((aw : ℚ) / (pw : ℚ))) := by omega
    have hcay : max 0 (min (pyint ((y : ℚ) * ((ah : ℚ) / (ph : ℚ)))) (ah - 1))
        = pyint ((y : ℚ) * ((ah : ℚ) / (ph : ℚ))) := by omega
    rw [hcax, hcay]
    unfold CoordinateMapping.actual_to_preset
    unfold CoordinateMapping.scale_x CoordinateMapping.scale_y
    simp only
    have hsx : (0 : ℚ) < (aw : ℚ) / (pw : ℚ) := by
      apply div_pos <;> exact_mod_cast by omega
    have hsy : (0 : ℚ) < (ah : ℚ) / (ph : ℚ) := by
      apply div_pos <;> exact_mod_cast by omega
    rw [if_pos hsx, if_pos hsy]
    have hcbx : max 0 (min (pyint ((x : ℚ) * ((aw : ℚ) / (pw : ℚ)))) (aw - 1))
        = pyint ((x : ℚ) * ((aw : ℚ) / (pw : ℚ))) := by omega
    have hcby : max 0 (min (pyint ((y : ℚ) * ((ah : ℚ) / (ph : ℚ)))) (ah - 1))
        = pyint ((y : ℚ) * ((ah : ℚ) / (ph : ℚ))) := by omega
    rw [hcbx, hcby]
    omega

/-- Witness for the amended C6 with the spec's concrete scenario: preset
1280×720 mapped to actual 2560×1440 — out-of-bounds inputs are clamped into
bounds and the round trip of (640, 360) lands within one unit. -/
theorem coordinate_clamp_and_roundtrip_witness :
    CoordinateMapping.make 1280 720 2560 1440 none none
      = .ok ⟨1280, 720, 2560, 1440, none, none⟩ ∧
    (0 ≤ (CoordinateMapping.preset_to_actual ⟨1280, 720, 2560, 1440, none, none⟩
            5000 (-3)).1 ∧
     (CoordinateMapping.preset_to_actual ⟨1280, 720, 2560, 1440, none, none⟩
        5000 (-3)).1 ≤ 2560 - 1) ∧
    (640 - 1 ≤ (CoordinateMapping.actual_to_preset
        ⟨1280, 720, 2560, 1440, none, none⟩
        (CoordinateMapping.preset_to_actual ⟨1280, 720, 2560, 1440, none, none⟩
            640 360).1
        (CoordinateMapping.preset_to_actual ⟨1280, 720, 2560, 1440, none, none⟩
            640 360).2).1 ∧
     (CoordinateMapping.actual_to_preset ⟨1280, 720, 2560, 1440, none, none⟩
        (CoordinateMapping.preset_to_actual ⟨1280, 720, 2560, 1440, none, none⟩
            640 360).1
        (CoordinateMapping.preset_to_actual ⟨1280, 720, 2560, 1440, none, none⟩
            640 360).2).1 ≤ 640) := by
  have h := coordinate_clamp_and_roundtrip 1280 720 2560 1440 640 360 none none
      ⟨1280, 720, 2560, 1440, none, none⟩ rfl
  have hrt := h.2 (by decide) (by decide) (by decide) (by decide) (by decide)
      (by decide)
  exact ⟨rfl, ⟨(h.1 5000 (-3)).1, (h.1 5000 (-3)).2.1⟩, hrt.1, hrt.2.1⟩

/-- Witness for C7: a concrete `tab` open command round-trips through its
dict form. -/
theorem serialize_parse_roundtrip_witness :
    Command.valid (.tab ⟨⟨some "abc", none⟩, .«open», some "https://x.com", some 3⟩)
      = true ∧
    parse_command (Command.toDict
        (.tab ⟨⟨some "abc", none⟩, .«open», some "https://x.com", some 3⟩))
      = .ok (.tab ⟨⟨some "abc", none⟩, .«open», some "https://x.com", some 3⟩) :=
  ⟨by decide,
   serialize_parse_roundtrip
     (.tab ⟨⟨some "abc", none⟩, .«open», some "https://x.com", some 3⟩) (by decide)⟩

end OpenBrowser
